import Mathlib

/-!
# Verification of `torrent-bot-v8.py`

A shallow embedding of the single-file torrent download/archive/upload
pipeline, together with theorems settling the specification claims.

The string-processing layer (`sanitize_filename`, `get_torrent_info`) is
embedded as pure functions on `List Char` / `String`.  The orchestration
layer (`main` and the component functions `download_torrent`, `create_zip`,
`upload_to_gofile`, `cleanup_files`) is embedded as a state-passing model:
an `Env` record supplies the outcomes of the external world (subprocess
exit codes, files produced by the download engine, the HTTP response,
user interruption), an `FS` record tracks the two filesystem locations
the program touches, and a `Trace` records the externally visible events
(subprocess launches, directory creation, HTTP requests, deletions and
the user-visible messages).
-/

set_option autoImplicit false

namespace TorrentBot

/-- The set of characters Python's `str.isspace`/regex `\s` treats as
whitespace (the script uses `re.sub(r'\s+', '_', ...)` and `.strip()`;
both operate on this Unicode whitespace set). -/
def wsChars : List Char :=
  ['\t', '\n', '\x0b', '\x0c', '\x0d', ' ',
   '\x1c', '\x1d', '\x1e', '\x1f', '\x85', '\xa0',
   ' ', ' ', ' ', ' ', ' ', ' ', ' ',
   ' ', ' ', ' ', ' ', ' ', ' ', ' ',
   ' ', ' ', '　']

/-- The `isPyWs c` holds when `c` is matched by Python's `\s`. -/
def isPyWs (c : Char) : Bool := wsChars.contains c

/-- The characters the script's `re.sub(r'[<>:"/\\|?*]', '_', filename)`
replaces: characters illegal in filenames. -/
def isIllegalChar (c : Char) : Bool :=
  c == '<' || c == '>' || c == ':' || c == '"' || c == '/' ||
  c == '\\' || c == '|' || c == '?' || c == '*'

/-- One character of the first substitution in `sanitize_filename`:
an illegal character becomes `'_'`, everything else is kept. -/
def replaceIllegal (c : Char) : Char := if isIllegalChar c then '_' else c

/-- The `re.sub(r'\s+', '_', s)` over a character list: each maximal run of
whitespace characters is replaced by a single `'_'`.  The boolean flag
records whether the previous character belonged to a whitespace run. -/
def collapseWsAux : Bool → List Char → List Char
  | _, [] => []
  | prevWs, c :: rest =>
    if isPyWs c then
      if prevWs then collapseWsAux true rest
      else '_' :: collapseWsAux true rest
    else c :: collapseWsAux false rest

/-- The `re.sub(r'\s+', '_', s)` (no run is in progress at the start). -/
def collapseWs (l : List Char) : List Char := collapseWsAux false l

/-- The `sanitize_filename` (source lines 18-23): replace the illegal
characters by `'_'`, collapse whitespace runs to `'_'`, truncate to 100
characters (`filename[:100]`, which counts code points). -/
def sanitize_filename (filename : String) : String :=
  String.mk ((collapseWs (filename.data.map replaceIllegal)).take 100)

/-- Does the list start with the three characters `d`, `n`, `=`?  Used to
embed both `'dn=' in magnet_link` and `re.search(r'dn=([^&]+)', ...)`. -/
def startsDn : List Char → Bool
  | 'd' :: 'n' :: '=' :: _ => true
  | _ => false

/-- Python's `'dn=' in magnet_link`: some position starts with `dn=`. -/
def containsDn : List Char → Bool
  | [] => false
  | c :: rest => startsDn (c :: rest) || containsDn rest

/-- The `re.search(r'dn=([^&]+)', s)`: scan left to right for a position at
which `dn=` is followed by at least one character other than `'&'`; the
captured group is the maximal run of non-`'&'` characters there.  When a
`dn=` occurrence is followed by `'&'` or the end of the string the whole
pattern fails at that position and the scan resumes one character later,
exactly as the regex engine backtracks. -/
def findDn : List Char → Option (List Char)
  | [] => none
  | c :: rest =>
    match c, rest with
    | 'd', 'n' :: '=' :: tail =>
      let v := tail.takeWhile (fun x => x ≠ '&')
      if v = [] then findDn rest else some v
    | _, _ => findDn rest

/-- Value of a hexadecimal digit, `none` for a non-digit. -/
def hexVal (c : Char) : Option Nat :=
  if '0' ≤ c ∧ c ≤ '9' then some (c.toNat - '0'.toNat)
  else if 'a' ≤ c ∧ c ≤ 'f' then some (c.toNat - 'a'.toNat + 10)
  else if 'A' ≤ c ∧ c ≤ 'F' then some (c.toNat - 'A'.toNat + 10)
  else none

/-- Percent-decoding of `c :: rest`: a `'%'` followed by two hex digits
becomes the decoded byte, a `'%'` not followed by two hex digits is kept
literally and scanning resumes at the next character. -/
def pctAux : Char → List Char → List Char
  | c, rest =>
    if c = '%' then
      match rest with
      | a :: b :: tail =>
        match hexVal a, hexVal b with
        | some ha, some hb =>
          Char.ofNat (16 * ha + hb) ::
            (match tail with | [] => [] | x :: xs => pctAux x xs)
        | _, _ => '%' :: pctAux a (b :: tail)
      | [a] => ['%', a]
      | [] => ['%']
    else c :: (match rest with | [] => [] | x :: xs => pctAux x xs)

/-- The `urllib.parse.unquote(s)` on a plus-free string: decode `%XX` escapes.
Decoding is modelled byte-wise: consecutive `%XX%XX` escapes forming one
multi-byte UTF-8 character are not recombined (no claim depends on the
decoded value of non-ASCII escapes). -/
def percentDecode : List Char → List Char
  | [] => []
  | c :: rest => pctAux c rest

/-- The `urllib.parse.unquote_plus`: replace every `'+'` by a space, then
percent-decode, exactly as the Python library composes the two steps. -/
def unquotePlus (l : List Char) : List Char :=
  percentDecode (l.map (fun c => if c = '+' then ' ' else c))

/-- The `get_torrent_info` (source lines 25-37): if the magnet link contains
`dn=` and the regex search succeeds, the captured value is plus/percent
decoded and sanitized; otherwise the fallback `torrent_<unix-seconds>` is
produced.  The current wall-clock time `int(time.time())` is passed in as
the parameter `now`; the function body raises nothing (the `try` in the
source can only be left normally), so it is total here. -/
def get_torrent_info (magnet_link : String) (now : Nat) : String :=
  if containsDn magnet_link.data then
    match findDn magnet_link.data with
    | some v => sanitize_filename (String.mk (unquotePlus v))
    | none => "torrent_" ++ toString now
  else "torrent_" ++ toString now

/-- Python `str.strip()`: drop leading and trailing whitespace. -/
def pyStrip (s : String) : String :=
  String.mk (((s.data.dropWhile isPyWs).reverse.dropWhile isPyWs).reverse)

/-- The `str.startswith` on character lists. -/
def startswith (l p : List Char) : Bool := p.isPrefixOf l

/-! ## The orchestration layer

`main` and the component functions are embedded as state-passing
functions.  External nondeterminism (subprocess exit codes, the files the
download engine produces, the HTTP response, the user pressing Ctrl-C) is
resolved by an `Env` record fixed for the run.  A `KeyboardInterrupt` or
an exception escaping a component is an `Except.error`; exceptions the
components catch internally are resolved to their handled results, as in
the source. -/

/-- Points of the run at which the model lets a `KeyboardInterrupt`
arrive: inside the blocking download loop or inside the blocking upload
request (the two long-running calls).  `except Exception` clauses in the
components do not catch it, so it always escapes to `main`. -/
inductive Stage where
  | download
  | upload
deriving DecidableEq, Repr

/-- An exception escaping a component into `main`'s handlers:
`KeyboardInterrupt` or an ordinary `Exception`. -/
inductive PyExc where
  | kbInterrupt
  | exn
deriving DecidableEq, Repr

/-- The user-visible messages the claims refer to, one constructor per
`print` in the source (progress-rendering and banner prints carry no
information and are elided). -/
inductive Msg where
  /-- The `"❌ Invalid magnet link!"` (line 197) -/
  | invalidMagnet
  /-- The `"📝 Detected name: {torrent_name}"` (line 202) -/
  | detectedName (name : String)
  /-- The `"🔄 Starting download..."` (line 43) -/
  | downloadStarted
  /-- The `"✅ Download completed successfully!"` (line 89) -/
  | downloadOk
  /-- The `"❌ Download failed with return code: {return_code}"` (line 92) -/
  | downloadFailed (code : Int)
  /-- The `"❌ Error during download: {e}"` (line 96) -/
  | downloadError
  /-- The `"❌ No files were downloaded!"` (line 213) -/
  | noFiles
  /-- The `"✅ Zip created with files moved (space saved): {zip_path}"` (line 114) -/
  | zipCreated (path : String)
  /-- The `"❌ Error creating zip: {stderr}"` (lines 123 and 127) -/
  | zipFailed
  /-- The `"❌ Upload failed with status code: {status}"` (line 154) -/
  | uploadFailedStatus (code : Nat)
  /-- The `"❌ Upload failed: {error}"` (line 151) -/
  | uploadFailedJson
  /-- The `"❌ Error uploading file: {e}"` (line 158) -/
  | uploadError
  /-- the success block of `main` (lines 225-229), with name and URL -/
  | success (name : String) (url : String)
  /-- The `"🧹 Cleaning up files..."` (line 163) -/
  | cleanupBanner
  /-- The `"❌ Process interrupted by user"` (line 235) -/
  | interrupted
  /-- The `"❌ Unexpected error: {e}"` (line 238) -/
  | unexpectedError
deriving DecidableEq, Repr

/-- Externally visible events of a run. -/
inductive Ev where
  /-- a subprocess is launched with this argument vector and working
  directory (`None` = inherited) -/
  | spawn (cmd : List String) (cwd : Option String)
  /-- The `os.makedirs(path, exist_ok=True)` -/
  | mkdir (path : String)
  /-- the multipart POST of the uploader -/
  | httpPost (url : String)
  /-- The `os.remove` of a file in `cleanup_files` -/
  | rmFile (path : String)
  /-- The `shutil.rmtree` of a directory in `cleanup_files` -/
  | rmDir (path : String)
  /-- the final `os.rmdir` of the empty downloads root in `cleanup_files` -/
  | rmdirEmptyDownloads
  /-- a `print` of a user-visible message -/
  | printMsg (m : Msg)
deriving DecidableEq, Repr

/-- A run's event trace, oldest first. -/
abbrev Trace := List Ev

/-- The filesystem locations the program touches: the contents of
`/content/downloads` (`none` = the directory does not exist) and the set
of archive files under `/content`. -/
structure FS where
  downloads : Option (List String)
  archives : List String
deriving DecidableEq, Repr

/-- The external world of one run: the user's input line, the wall-clock
time, and the outcomes of every external interaction.  `makedirsRaises`
models an `OSError` from `os.makedirs` (line 41, outside any `try` in
`download_torrent`, hence an "unexpected error" for `main`);
`aria2Raises`/`zipRaises`/`httpRaises` model exceptions that the
components catch internally (`requests` transport errors and invalid
JSON bodies are merged into `httpRaises`); `rmdirFails` models
`os.rmdir` failing on the emptied source directory (swallowed, line
119-120). -/
structure Env where
  input : String
  time : Nat
  makedirsRaises : Bool
  interruptAt : Option Stage
  aria2Raises : Bool
  aria2Exit : Int
  filesDownloaded : List String
  zipRaises : Bool
  zipExit : Int
  rmdirFails : Bool
  httpRaises : Bool
  httpStatus : Nat
  httpJsonStatus : Option String
  httpDownloadPage : Option String
deriving DecidableEq, Repr

/-- The fixed download directory of the script. -/
def downloadDir : String := "/content/downloads"

/-- The `install_dependencies` (lines 11-16): two `apt-get` subprocesses.
Both use `check=True`; the model assumes they succeed (a failing
dependency install crashes before any claim-relevant behaviour). -/
def install_dependencies : Trace :=
  [Ev.spawn ["apt-get", "update", "-qq"] none,
   Ev.spawn ["apt-get", "install", "-y", "-qq", "aria2"] none]

/-- The aria2c argument vector of lines 47-56. -/
def aria2Cmd (download_dir magnet_link : String) : List String :=
  ["aria2c", "--seed-time=0", "--max-upload-limit=1K",
   "--dir=" ++ download_dir, "--summary-interval=1",
   "--download-result=hide", "--console-log-level=warn", magnet_link]

/-- The `download_torrent` (lines 39-97).  `os.makedirs` runs outside the
`try`, so its failure escapes as an exception; then aria2c is spawned and
its line-filtered progress loop runs (the loop only prints, so it is
elided); the files the engine wrote are added to the directory; finally
the result is `True` exactly when the exit code is `0`, with a
`KeyboardInterrupt` escaping and any other exception caught into
`False`. -/
def download_torrent (magnet_link download_dir : String) (env : Env)
    (fs : FS) : Except PyExc Bool × FS × Trace :=
  if env.makedirsRaises then (Except.error PyExc.exn, fs, []) else
  let fs : FS := { fs with downloads := some (fs.downloads.getD []) }
  let tr : Trace := [Ev.mkdir download_dir, Ev.printMsg Msg.downloadStarted,
                     Ev.spawn (aria2Cmd download_dir magnet_link) none]
  let fs : FS :=
    { fs with downloads := some (fs.downloads.getD [] ++ env.filesDownloaded) }
  if env.interruptAt = some Stage.download then
    (Except.error PyExc.kbInterrupt, fs, tr)
  else if env.aria2Raises then
    (Except.ok false, fs, tr ++ [Ev.printMsg Msg.downloadError])
  else if env.aria2Exit = 0 then
    (Except.ok true, fs, tr ++ [Ev.printMsg Msg.downloadOk])
  else
    (Except.ok false, fs,
     tr ++ [Ev.printMsg (Msg.downloadFailed env.aria2Exit)])

/-- The `create_zip` (lines 99-128): run `zip -r -m <path> .` with the source
directory as working directory; on exit code `0` the move-mode archiver
has emptied the source directory into the new archive, and the emptied
directory is removed best-effort (`os.rmdir`, failure swallowed); on a
non-zero exit code, or an exception caught by the `except`, the result is
`None`.  The model tracks the one directory the program archives, so the
directory effects apply when `source_dir` is the downloads root. -/
def create_zip (source_dir zip_name : String) (env : Env) (fs : FS) :
    Except PyExc (Option String) × FS × Trace :=
  let zip_path := "/content/" ++ zip_name ++ ".zip"
  if env.zipRaises then (Except.ok none, fs, [Ev.printMsg Msg.zipFailed]) else
  let tr : Trace := [Ev.spawn ["zip", "-r", "-m", zip_path, "."] (some source_dir)]
  if env.zipExit = 0 then
    let fs : FS :=
      { downloads :=
          if source_dir = downloadDir then
            if env.rmdirFails then some [] else none
          else fs.downloads,
        archives := zip_path :: fs.archives }
    (Except.ok (some zip_path), fs, tr ++ [Ev.printMsg (Msg.zipCreated zip_path)])
  else
    (Except.ok none, fs, tr ++ [Ev.printMsg Msg.zipFailed])

/-- The fixed upload endpoint (line 135). -/
def uploadUrl : String := "https://upload.gofile.io/uploadfile"

/-- The `upload_to_gofile` (lines 130-159): open the file (a missing file
raises inside the `try` and yields `None`), POST it, and require both
HTTP 200 and a JSON `status` of `"ok"`; the download-page URL is then
extracted (a missing field raises a `KeyError`, caught into `None`).
A `KeyboardInterrupt` during the blocking request escapes. -/
def upload_to_gofile (file_path : String) (env : Env) (fs : FS) :
    Except PyExc (Option String) × FS × Trace :=
  if file_path ∈ fs.archives then
    let tr : Trace := [Ev.httpPost uploadUrl]
    if env.interruptAt = some Stage.upload then
      (Except.error PyExc.kbInterrupt, fs, tr)
    else if env.httpRaises then
      (Except.ok none, fs, tr ++ [Ev.printMsg Msg.uploadError])
    else if env.httpStatus = 200 then
      if env.httpJsonStatus = some "ok" then
        match env.httpDownloadPage with
        | some url => (Except.ok (some url), fs, tr)
        | none => (Except.ok none, fs, tr ++ [Ev.printMsg Msg.uploadError])
      else (Except.ok none, fs, tr ++ [Ev.printMsg Msg.uploadFailedJson])
    else
      (Except.ok none, fs,
       tr ++ [Ev.printMsg (Msg.uploadFailedStatus env.httpStatus)])
  else (Except.ok none, fs, [Ev.printMsg Msg.uploadError])

/-- One iteration of the loop in `cleanup_files` (lines 164-174): an
existing file is removed, an existing directory is removed recursively;
in the model the archive paths are the files and the downloads root is
the only directory. -/
def cleanupOne (acc : FS × Trace) (p : String) : FS × Trace :=
  let fs := acc.1
  if p ∈ fs.archives then
    ({ fs with archives := fs.archives.erase p }, acc.2 ++ [Ev.rmFile p])
  else if p = downloadDir ∧ fs.downloads.isSome then
    ({ fs with downloads := none }, acc.2 ++ [Ev.rmDir p])
  else acc

/-- The `cleanup_files(*file_paths)` (lines 161-183): delete each existing
path, then remove the downloads root if it exists and is empty. -/
def cleanup_files (file_paths : List String) (fs : FS) : FS × Trace :=
  let acc := file_paths.foldl cleanupOne (fs, [Ev.printMsg Msg.cleanupBanner])
  if acc.1.downloads = some [] then
    ({ acc.1 with downloads := none }, acc.2 ++ [Ev.rmdirEmptyDownloads])
  else acc

/-- The message printed by `main`'s two exception handlers
(lines 234-239). -/
def abortMsg : PyExc → Msg
  | PyExc.kbInterrupt => Msg.interrupted
  | PyExc.exn => Msg.unexpectedError

/-- The `main` (lines 185-239): install dependencies, read and strip the
input, validate the magnet prefix, derive the name, then run
download → empty-check → zip → upload → cleanup, with early `return`s on
failure and with the two handlers cleaning up the download directory on
`KeyboardInterrupt` or an unexpected exception.  Returns the final
filesystem state and the event trace. -/
def mainRun (env : Env) : FS × Trace :=
  let fs0 : FS := ⟨none, []⟩
  let tr0 : Trace := install_dependencies
  let magnet_link := pyStrip env.input
  if startswith magnet_link.data "magnet:".data then
    let torrent_name := get_torrent_info magnet_link env.time
    let tr0 := tr0 ++ [Ev.printMsg (Msg.detectedName torrent_name)]
    match download_torrent magnet_link downloadDir env fs0 with
    | (Except.error e, fs1, tr1) =>
      let c := cleanup_files [downloadDir] fs1
      (c.1, tr0 ++ tr1 ++ [Ev.printMsg (abortMsg e)] ++ c.2)
    | (Except.ok false, fs1, tr1) => (fs1, tr0 ++ tr1)
    | (Except.ok true, fs1, tr1) =>
      if fs1.downloads = none ∨ fs1.downloads = some [] then
        (fs1, tr0 ++ tr1 ++ [Ev.printMsg Msg.noFiles])
      else
        match create_zip downloadDir torrent_name env fs1 with
        | (Except.error e, fs2, tr2) =>
          let c := cleanup_files [downloadDir] fs2
          (c.1, tr0 ++ tr1 ++ tr2 ++ [Ev.printMsg (abortMsg e)] ++ c.2)
        | (Except.ok none, fs2, tr2) => (fs2, tr0 ++ tr1 ++ tr2)
        | (Except.ok (some zip_path), fs2, tr2) =>
          match upload_to_gofile zip_path env fs2 with
          | (Except.error e, fs3, tr3) =>
            let c := cleanup_files [downloadDir] fs3
            (c.1, tr0 ++ tr1 ++ tr2 ++ tr3 ++ [Ev.printMsg (abortMsg e)] ++ c.2)
          | (Except.ok res, fs3, tr3) =>
            let trS : Trace :=
              match res with
              | some url => [Ev.printMsg (Msg.success torrent_name url)]
              | none => []
            let c := cleanup_files [zip_path, downloadDir] fs3
            (c.1, tr0 ++ tr1 ++ tr2 ++ tr3 ++ trS ++ c.2)
  else (fs0, tr0 ++ [Ev.printMsg Msg.invalidMagnet])

/-! ## Trace observations -/

/-- The argument vector of a subprocess-launch event, `none` for every
other event. -/
def evCmd : Ev → Option (List String)
  | Ev.spawn cmd _ => some cmd
  | Ev.mkdir _ => none
  | Ev.httpPost _ => none
  | Ev.rmFile _ => none
  | Ev.rmDir _ => none
  | Ev.rmdirEmptyDownloads => none
  | Ev.printMsg _ => none

/-- Is this event the launch of the external archiving utility? -/
def zipSpawn (e : Ev) : Bool :=
  match evCmd e with
  | some ("zip" :: _) => true
  | _ => false

/-- Does the trace launch the external archiving utility (`create_zip`'s
subprocess)? -/
def spawnsZip (tr : Trace) : Bool := tr.any zipSpawn

/-- Is this event the launch of the external download engine? -/
def aria2Spawn (e : Ev) : Bool :=
  match evCmd e with
  | some ("aria2c" :: _) => true
  | _ => false

/-- Does the trace launch the external download engine
(`download_torrent`'s subprocess)? -/
def spawnsAria2 (tr : Trace) : Bool := tr.any aria2Spawn

/-- Does the trace launch any subprocess at all? -/
def spawnsAny (tr : Trace) : Bool := tr.any (fun e => (evCmd e).isSome)

/-- Is this event a directory creation? -/
def mkdirEv : Ev → Bool
  | Ev.mkdir _ => true
  | Ev.spawn _ _ => false
  | Ev.httpPost _ => false
  | Ev.rmFile _ => false
  | Ev.rmDir _ => false
  | Ev.rmdirEmptyDownloads => false
  | Ev.printMsg _ => false

/-- Does the trace create a directory? -/
def makesDir (tr : Trace) : Bool := tr.any mkdirEv

/-- Did `cleanup_files` run in this trace?  Its first action is
unconditionally the cleanup banner print (line 163). -/
def CleanupRan (tr : Trace) : Prop := Ev.printMsg Msg.cleanupBanner ∈ tr

instance (tr : Trace) : Decidable (CleanupRan tr) := by
  unfold CleanupRan
  infer_instance

/-- The runs in which `main` actually calls `cleanup_files`: a valid
magnet prefix and then either one of the two exception handlers fires
(an `os.makedirs` failure, i.e. an unexpected error, or an interruption
during the download) or the straight-line path reaches the upload call
(download ran, exited 0 and produced files, and the archiver ran and
exited 0).  The early `return`s of `main` on invalid input, download
failure, empty download and archive failure do not call
`cleanup_files`. -/
def ReachesCleanup (env : Env) : Prop :=
  startswith (pyStrip env.input).data "magnet:".data = true ∧
    (env.makedirsRaises = true ∨ env.interruptAt = some Stage.download ∨
      (env.aria2Raises = false ∧ env.aria2Exit = 0 ∧
        env.filesDownloaded ≠ [] ∧ env.zipRaises = false ∧
        env.zipExit = 0))

instance (env : Env) : Decidable (ReachesCleanup env) := by
  unfold ReachesCleanup
  infer_instance

/-! ## Concrete environments for witnesses and counterexamples -/

/-- A run in which the input is a valid magnet link and every external
step succeeds. -/
def envSuccess : Env :=
  { input := "magnet:?xt=urn:btih:ABC&dn=My+Cool+File", time := 7,
    makedirsRaises := false, interruptAt := none,
    aria2Raises := false, aria2Exit := 0, filesDownloaded := ["file.bin"],
    zipRaises := false, zipExit := 0, rmdirFails := false,
    httpRaises := false, httpStatus := 200, httpJsonStatus := some "ok",
    httpDownloadPage := some "https://gofile.io/d/abc" }

/-- A run in which the download engine exits with code 1 after writing a
partial file. -/
def envDownloadFail : Env :=
  { envSuccess with aria2Exit := 1, filesDownloaded := ["partial.bin"] }

/-- A run with the invalid input of the end-to-end scenario. -/
def envNotMagnet : Env := { envSuccess with input := "not-a-magnet" }

/-- A run whose input is a valid magnet link preceded by whitespace. -/
def envSpacedMagnet : Env :=
  { envSuccess with input := "  magnet:?xt=urn:btih:ABC" }

/-- A run in which the upload endpoint answers with HTTP 500. -/
def envUploadFail : Env := { envSuccess with httpStatus := 500 }

/-! ## Lemmas about the sanitizer -/

/-- Every character of `l.map replaceIllegal` is legal: illegal
characters were replaced by `'_'`, which is legal. -/
theorem isIllegalChar_of_mem_map_replaceIllegal {c : Char} {l : List Char}
    (h : c ∈ l.map replaceIllegal) : isIllegalChar c = false := by
  rcases List.mem_map.mp h with ⟨a, _, ha⟩
  subst ha
  unfold replaceIllegal
  by_cases hill : isIllegalChar a = true
  · rw [if_pos hill]; decide
  · rw [if_neg hill]; simpa using hill

/-- Replacing illegal characters is the identity on a list without
illegal characters. -/
theorem map_replaceIllegal_id {l : List Char}
    (h : ∀ c ∈ l, isIllegalChar c = false) : l.map replaceIllegal = l := by
  induction l with
  | nil => rfl
  | cons c rest ih =>
    have hc := h c (List.mem_cons_self c rest)
    simp only [List.map_cons, replaceIllegal, hc, if_false, Bool.false_eq_true,
      ite_false, List.cons.injEq, true_and]
    exact ih fun x hx => h x (List.mem_cons_of_mem c hx)

/-- Characters of the whitespace-collapsed list: never whitespace, and
either the inserted `'_'` or a character of the input. -/
theorem mem_collapseWsAux {c : Char} :
    ∀ (l : List Char) (b : Bool), c ∈ collapseWsAux b l →
      isPyWs c = false ∧ (c = '_' ∨ c ∈ l) := by
  intro l
  induction l with
  | nil => intro b h; simp [collapseWsAux] at h
  | cons d rest ih =>
    intro b h
    by_cases hd : isPyWs d = true
    · cases b with
      | true =>
        simp only [collapseWsAux, hd, if_true] at h
        rcases ih true h with ⟨h1, h2⟩
        exact ⟨h1, h2.imp id (List.mem_cons_of_mem d)⟩
      | false =>
        simp only [collapseWsAux, hd, if_true] at h
        rcases List.mem_cons.mp h with hc | hc
        · subst hc; exact ⟨by decide, Or.inl rfl⟩
        · rcases ih true hc with ⟨h1, h2⟩
          exact ⟨h1, h2.imp id (List.mem_cons_of_mem d)⟩
    · simp only [collapseWsAux, hd, if_false] at h
      rcases List.mem_cons.mp h with hc | hc
      · subst hc
        exact ⟨by simpa using hd, Or.inr (List.mem_cons_self _ _)⟩
      · rcases ih false hc with ⟨h1, h2⟩
        exact ⟨h1, h2.imp id (List.mem_cons_of_mem d)⟩

/-- Collapsing whitespace is the identity on a list without
whitespace. -/
theorem collapseWsAux_id {l : List Char}
    (h : ∀ c ∈ l, isPyWs c = false) : ∀ b, collapseWsAux b l = l := by
  induction l with
  | nil => intro b; rfl
  | cons c rest ih =>
    intro b
    have hc := h c (List.mem_cons_self c rest)
    simp only [collapseWsAux, hc, if_false, Bool.false_eq_true, ite_false,
      List.cons.injEq, true_and]
    exact ih (fun x hx => h x (List.mem_cons_of_mem c hx)) false

/-- The output of `sanitize_filename` never contains a character of the
illegal set, and its length is at most 100. -/
theorem sanitize_filename_safe (f : String) :
    (∀ c ∈ (sanitize_filename f).data, isIllegalChar c = false) ∧
      (sanitize_filename f).length ≤ 100 := by
  constructor
  · intro c hc
    have hc' : c ∈ collapseWs (f.data.map replaceIllegal) :=
      List.mem_of_mem_take (by simpa [sanitize_filename] using hc)
    rcases mem_collapseWsAux _ _ hc' with ⟨_, h2⟩
    rcases h2 with rfl | hmem
    · decide
    · exact isIllegalChar_of_mem_map_replaceIllegal hmem
  · simp only [sanitize_filename, String.length]
    calc ((collapseWs (f.data.map replaceIllegal)).take 100).length
        ≤ 100 := by
          rw [List.length_take]
          exact Nat.min_le_left _ _

/-- Characters of the sanitized output are neither illegal nor
whitespace. -/
theorem mem_sanitize_filename {c : Char} {f : String}
    (h : c ∈ (sanitize_filename f).data) :
    isIllegalChar c = false ∧ isPyWs c = false := by
  have hc' : c ∈ collapseWs (f.data.map replaceIllegal) :=
    List.mem_of_mem_take (by simpa [sanitize_filename] using h)
  rcases mem_collapseWsAux _ _ hc' with ⟨h1, h2⟩
  refine ⟨?_, h1⟩
  rcases h2 with rfl | hmem
  · decide
  · exact isIllegalChar_of_mem_map_replaceIllegal hmem

/-- A `findDn` hit implies the `'dn=' in magnet_link` test succeeds. -/
theorem containsDn_of_findDn {l : List Char} {v : List Char}
    (h : findDn l = some v) : containsDn l = true := by
  induction l with
  | nil => simp [findDn] at h
  | cons c rest ih =>
    rw [findDn.eq_def] at h
    simp only at h
    split at h
    · simp [containsDn, startsDn]
    · simp [containsDn, ih h]

/-- When `startsDn` fails at the head, `startsDn` at the head is
false (unfolding helper for the catch-all equation). -/
theorem startsDn_eq_false {c : Char} {rest : List Char}
    (h : ∀ tail, ¬(c = 'd' ∧ rest = 'n' :: '=' :: tail)) :
    startsDn (c :: rest) = false := by
  rw [startsDn.eq_def]
  split
  · rename_i tail heq
    injection heq with h1 h2
    exact absurd ⟨h1, h2⟩ (h tail)
  · rfl

/-- The `containsDn` is exactly the substring test `'dn=' in s`. -/
theorem containsDn_substring_test {l : List Char} :
    containsDn l = true ↔ ['d', 'n', '='] <:+: l := by
  induction l with
  | nil => simp [containsDn]
  | cons c rest ih =>
    constructor
    · intro h
      simp only [containsDn, Bool.or_eq_true] at h
      rcases h with h | h
      · rw [startsDn.eq_def] at h
        split at h
        · rename_i tail heq
          injection heq with h1 h2
          exact ⟨[], tail, by rw [h1, h2]; rfl⟩
        · simp at h
      · rcases ih.mp h with ⟨s, t, hst⟩
        exact ⟨c :: s, t, by simp only [List.cons_append, hst]⟩
    · rintro ⟨s, t, hst⟩
      cases s with
      | nil =>
        simp only [List.nil_append] at hst
        rw [← hst]
        simp [containsDn, startsDn]
      | cons a s' =>
        simp only [List.cons_append] at hst
        injection hst with h1 h2
        have : containsDn rest = true := ih.mpr ⟨s', t, h2⟩
        simp [containsDn, this]

/-! ## Claims about the Name Extractor and the sanitizer -/

/-- C5: for every magnet string whose `dn=` parameter value (as captured
by the search `dn=([^&]+)`) includes characters illegal in filenames, the
Name Extractor's output contains none of those illegal characters and has
length at most 100 characters. -/
theorem C5_dn_value_sanitized (s : String) (now : Nat) (v : List Char)
    (hfind : findDn s.data = some v)
    (_hbad : ∃ c ∈ v, isIllegalChar c = true) :
    (∀ c ∈ (get_torrent_info s now).data, isIllegalChar c = false) ∧
      (get_torrent_info s now).length ≤ 100 := by
  have hcd : containsDn s.data = true := containsDn_of_findDn hfind
  have hout : get_torrent_info s now
      = sanitize_filename (String.mk (unquotePlus v)) := by
    simp [get_torrent_info, hcd, hfind]
  rw [hout]
  exact sanitize_filename_safe _

/-- Witness for C5 at the concrete magnet string `magnet:?dn=a<b>c`:
the captured `dn=` value contains the illegal characters `<` and `>`,
and the extracted name is free of them and short. -/
theorem C5_dn_value_sanitized_witness :
    findDn "magnet:?dn=a<b>c".data = some ['a', '<', 'b', '>', 'c'] ∧
      ((∀ c ∈ (get_torrent_info "magnet:?dn=a<b>c" 0).data,
          isIllegalChar c = false) ∧
        (get_torrent_info "magnet:?dn=a<b>c" 0).length ≤ 100) :=
  ⟨by decide,
   C5_dn_value_sanitized "magnet:?dn=a<b>c" 0 ['a', '<', 'b', '>', 'c']
     (by decide) ⟨'<', by decide, by decide⟩⟩

/-- C8: for every magnet string that does not contain `dn=`, the Name
Extractor never raises (it is a total function here; the `try` in the
source can only be left normally on this path) and returns the timestamp
fallback `torrent_<unix-seconds>`. -/
theorem C8_fallback_timestamp_name (s : String) (now : Nat)
    (h : ¬ ("dn=".data <:+: s.data)) :
    get_torrent_info s now = "torrent_" ++ toString now := by
  have hc : containsDn s.data = false := by
    by_cases hb : containsDn s.data = true
    · exact absurd (containsDn_substring_test.mp hb) h
    · simpa using hb
  simp [get_torrent_info, hc]

/-- Witness for C8 at the concrete magnet string
`magnet:?xt=urn:btih:ABC` and time `12345`. -/
theorem C8_fallback_timestamp_name_witness :
    ¬ ("dn=".data <:+: "magnet:?xt=urn:btih:ABC".data) ∧
      get_torrent_info "magnet:?xt=urn:btih:ABC" 12345 = "torrent_12345" :=
  ⟨by decide, C8_fallback_timestamp_name "magnet:?xt=urn:btih:ABC" 12345
    (by decide)⟩

/-- C9: for the input `magnet:?xt=urn:btih:ABC&dn=My+Cool+File` the Name
Extractor derives exactly the label `My_Cool_File` (plus-encoded spaces
decoded, whitespace collapsed to underscores), whatever the wall-clock
time. -/
theorem C9_example_label (now : Nat) :
    get_torrent_info "magnet:?xt=urn:btih:ABC&dn=My+Cool+File" now
      = "My_Cool_File" := rfl

/-- C10: the filename sanitizer is idempotent — sanitizing an
already-sanitized name changes nothing. -/
theorem C10_sanitize_filename_idempotent (s : String) :
    sanitize_filename (sanitize_filename s) = sanitize_filename s := by
  unfold sanitize_filename
  have h1 : ∀ c ∈ (collapseWs (s.data.map replaceIllegal)).take 100,
      isIllegalChar c = false := by
    intro c hc
    rcases mem_collapseWsAux _ _ (List.mem_of_mem_take hc) with ⟨_, h2⟩
    rcases h2 with rfl | hmem
    · decide
    · exact isIllegalChar_of_mem_map_replaceIllegal hmem
  have h2 : ∀ c ∈ (collapseWs (s.data.map replaceIllegal)).take 100,
      isPyWs c = false :=
    fun c hc => (mem_collapseWsAux _ _ (List.mem_of_mem_take hc)).1
  show String.mk
      ((collapseWs (((collapseWs (s.data.map replaceIllegal)).take 100).map
        replaceIllegal)).take 100) = _
  rw [map_replaceIllegal_id h1]
  show String.mk
      ((collapseWsAux false ((collapseWs (s.data.map replaceIllegal)).take
        100)).take 100) = _
  rw [collapseWsAux_id h2 false, List.take_take]
  norm_num

/-! ## Lemmas about the pipeline traces -/

/-- The `spawnsZip` distributes over trace concatenation. -/
theorem spawnsZip_append (a b : Trace) :
    spawnsZip (a ++ b) = (spawnsZip a || spawnsZip b) :=
  List.any_append

/-- The dependency-installation trace never launches the archiving
utility. -/
theorem spawnsZip_install : spawnsZip install_dependencies = false := rfl

/-- A single print event never launches the archiving utility. -/
theorem spawnsZip_print (m : Msg) : spawnsZip [Ev.printMsg m] = false := rfl

/-- One cleanup step never launches the archiving utility. -/
theorem spawnsZip_cleanupOne (acc : FS × Trace) (p : String) :
    spawnsZip (cleanupOne acc p).2 = spawnsZip acc.2 := by
  simp only [cleanupOne]
  split_ifs <;> simp [spawnsZip, List.any_append, zipSpawn, evCmd]

/-- The `cleanup_files` never launches the archiving utility. -/
theorem spawnsZip_cleanup_files (paths : List String) (fs : FS) :
    spawnsZip (cleanup_files paths fs).2 = false := by
  unfold cleanup_files
  have hfold : ∀ (ps : List String) (acc : FS × Trace),
      spawnsZip ((ps.foldl cleanupOne acc).2) = spawnsZip acc.2 := by
    intro ps
    induction ps with
    | nil => intro acc; rfl
    | cons p ps ih =>
      intro acc
      rw [List.foldl_cons, ih, spawnsZip_cleanupOne]
  by_cases hd :
      (paths.foldl cleanupOne
        (fs, [Ev.printMsg Msg.cleanupBanner])).1.downloads = some []
  · simp only [hd, if_true]
    rw [spawnsZip_append, hfold]
    simp [spawnsZip, zipSpawn, evCmd]
  · simp only [hd, if_false]
    rw [hfold]
    simp [spawnsZip, zipSpawn, evCmd]

/-- The `download_torrent` never launches the archiving utility. -/
theorem spawnsZip_download_torrent (m d : String) (env : Env) (fs : FS) :
    spawnsZip (download_torrent m d env fs).2.2 = false := by
  unfold download_torrent
  split_ifs <;>
    simp [spawnsZip, List.any_append, zipSpawn, evCmd, aria2Cmd]

/-- The `download_torrent` reports success only on exit code zero. -/
theorem download_torrent_ok_true (m d : String) (env : Env) (fs : FS)
    (h : (download_torrent m d env fs).1 = Except.ok true) :
    env.aria2Exit = 0 := by
  unfold download_torrent at h
  split_ifs at h <;> simp_all

/-- When the download engine exits non-zero, no branch of `main` ever
launches the archiving utility. -/
theorem no_zip_spawn_of_nonzero_exit (env : Env) (h : env.aria2Exit ≠ 0) :
    spawnsZip (mainRun env).2 = false := by
  unfold mainRun
  by_cases hv : startswith (pyStrip env.input).data "magnet:".data = true
  · rw [if_pos hv]
    rcases hdt : download_torrent (pyStrip env.input) downloadDir env
        ⟨none, []⟩ with ⟨res, fs1, tr1⟩
    have htr1 : spawnsZip tr1 = false := by
      have h2 := spawnsZip_download_torrent (pyStrip env.input) downloadDir
        env ⟨none, []⟩
      rw [hdt] at h2
      exact h2
    cases res with
    | error e =>
      simp only [spawnsZip_append, htr1, spawnsZip_cleanup_files,
        spawnsZip_install, spawnsZip_print, Bool.or_false, Bool.false_or]
    | ok b =>
      cases b with
      | true =>
        exact absurd
          (download_torrent_ok_true _ _ _ _ (by rw [hdt])) h
      | false =>
        simp only [spawnsZip_append, htr1, spawnsZip_install,
          spawnsZip_print, Bool.or_false, Bool.false_or]
  · rw [if_neg hv]
    simp only [spawnsZip_append, spawnsZip_install, spawnsZip_print,
      Bool.or_false, Bool.false_or]

/-- C3: the Download Runner reports success if and only if its
subprocess's exit code is zero (given that the subprocess actually ran
to completion: directory creation succeeded, no interruption, no
exception); on a non-zero exit code it reports failure including that
code, and the Archiver's subprocess is never launched in that run. -/
theorem C3_success_iff_exit_zero (magnet_link download_dir : String)
    (env : Env) (fs : FS)
    (hm : env.makedirsRaises = false)
    (hi : env.interruptAt ≠ some Stage.download)
    (hr : env.aria2Raises = false) :
    ((download_torrent magnet_link download_dir env fs).1 = Except.ok true
        ↔ env.aria2Exit = 0) ∧
      (env.aria2Exit ≠ 0 →
        Ev.printMsg (Msg.downloadFailed env.aria2Exit)
          ∈ (download_torrent magnet_link download_dir env fs).2.2) ∧
      (env.aria2Exit ≠ 0 → spawnsZip (mainRun env).2 = false) := by
  refine ⟨?_, ?_, fun h => no_zip_spawn_of_nonzero_exit env h⟩
  · unfold download_torrent
    simp only [hm, Bool.false_eq_true, if_false, hi, ite_false, hr]
    by_cases hz : env.aria2Exit = 0 <;> simp [hz]
  · intro hz
    unfold download_torrent
    simp only [hm, Bool.false_eq_true, if_false, hi, ite_false, hr, hz]
    simp [hz]

/-- Witness for C3 in the concrete run `envDownloadFail` (exit code 1):
the runner reports failure with code 1 and the archiver is never
launched. -/
theorem C3_success_iff_exit_zero_witness :
    (envDownloadFail.makedirsRaises = false ∧
      envDownloadFail.interruptAt ≠ some Stage.download ∧
      envDownloadFail.aria2Raises = false ∧ envDownloadFail.aria2Exit ≠ 0) ∧
    (((download_torrent "magnet:?xt=urn:btih:ABC" downloadDir envDownloadFail
          ⟨none, []⟩).1 = Except.ok true ↔ envDownloadFail.aria2Exit = 0) ∧
      (envDownloadFail.aria2Exit ≠ 0 →
        Ev.printMsg (Msg.downloadFailed envDownloadFail.aria2Exit)
          ∈ (download_torrent "magnet:?xt=urn:btih:ABC" downloadDir
              envDownloadFail ⟨none, []⟩).2.2) ∧
      (envDownloadFail.aria2Exit ≠ 0 →
        spawnsZip (mainRun envDownloadFail).2 = false)) :=
  ⟨⟨rfl, by decide, rfl, by decide⟩,
   C3_success_iff_exit_zero "magnet:?xt=urn:btih:ABC" downloadDir
     envDownloadFail ⟨none, []⟩ rfl (by decide) rfl⟩

/-- When directory creation succeeds, no interrupt arrives and no
exception is thrown, `download_torrent` returns `True` iff the engine
exited 0; here the full result on exit code 0. -/
theorem download_torrent_success (m d : String) (env : Env) (fs : FS)
    (hm : env.makedirsRaises = false)
    (hi : env.interruptAt ≠ some Stage.download)
    (hr : env.aria2Raises = false) (he : env.aria2Exit = 0) :
    download_torrent m d env fs =
      (Except.ok true,
       ⟨some (fs.downloads.getD [] ++ env.filesDownloaded), fs.archives⟩,
       [Ev.mkdir d, Ev.printMsg Msg.downloadStarted,
        Ev.spawn (aria2Cmd d m) none, Ev.printMsg Msg.downloadOk]) := by
  unfold download_torrent
  simp [hm, hi, hr, he]

/-- The full result of `create_zip` on the downloads directory when the
archiving subprocess exits 0 and no exception occurs. -/
theorem create_zip_success (zip_name : String) (env : Env)
    (fs : FS) (hzr : env.zipRaises = false) (hze : env.zipExit = 0) :
    create_zip downloadDir zip_name env fs =
      (Except.ok (some ("/content/" ++ zip_name ++ ".zip")),
       ⟨(if env.rmdirFails then some [] else none),
        ("/content/" ++ zip_name ++ ".zip") :: fs.archives⟩,
       [Ev.spawn ["zip", "-r", "-m", "/content/" ++ zip_name ++ ".zip", "."]
          (some downloadDir),
        Ev.printMsg (Msg.zipCreated ("/content/" ++ zip_name ++ ".zip"))]) := by
  unfold create_zip
  simp [hzr, hze]

/-- The uploader never modifies the filesystem. -/
theorem upload_to_gofile_fs_unchanged (fp : String) (env : Env) (fs : FS) :
    (upload_to_gofile fp env fs).2.1 = fs := by
  unfold upload_to_gofile
  split_ifs <;> first
    | rfl
    | (cases env.httpDownloadPage <;> rfl)

/-- Cleaning up the archive and the downloads root from the state left
by a successful archiving step empties the model filesystem. -/
theorem cleanup_after_zip (zp : String) (dl : Option (List String))
    (hdl : dl = some [] ∨ dl = none) :
    (cleanup_files [zp, downloadDir] ⟨dl, [zp]⟩).1 = ⟨none, []⟩ := by
  rcases hdl with rfl | rfl <;>
    simp [cleanup_files, cleanupOne, List.erase_cons_head]

/-- C6: if the Archiver succeeds on the downloads directory and a base
name, then afterwards the source directory no longer exists or is empty,
and the archive file exists at the expected output path
`/content/<name>.zip`, which `create_zip` returns. -/
theorem C6_archiver_postcondition (zip_name : String) (env : Env) (fs : FS)
    (p : String)
    (h : (create_zip downloadDir zip_name env fs).1 = Except.ok (some p)) :
    p = "/content/" ++ zip_name ++ ".zip" ∧
      p ∈ (create_zip downloadDir zip_name env fs).2.1.archives ∧
      ((create_zip downloadDir zip_name env fs).2.1.downloads = none ∨
        (create_zip downloadDir zip_name env fs).2.1.downloads = some []) := by
  unfold create_zip at h ⊢
  split_ifs at h ⊢ with h1 h2 h3 <;> simp_all

/-- Witness for C6: a successful archiving run from a populated
downloads directory. -/
theorem C6_archiver_postcondition_witness :
    (create_zip downloadDir "My_Cool_File" envSuccess
        ⟨some ["file.bin"], []⟩).1
      = Except.ok (some "/content/My_Cool_File.zip") ∧
    ("/content/My_Cool_File.zip" = "/content/" ++ "My_Cool_File" ++ ".zip" ∧
      "/content/My_Cool_File.zip"
        ∈ (create_zip downloadDir "My_Cool_File" envSuccess
            ⟨some ["file.bin"], []⟩).2.1.archives ∧
      ((create_zip downloadDir "My_Cool_File" envSuccess
          ⟨some ["file.bin"], []⟩).2.1.downloads = none ∨
        (create_zip downloadDir "My_Cool_File" envSuccess
          ⟨some ["file.bin"], []⟩).2.1.downloads = some [])) :=
  ⟨rfl,
   C6_archiver_postcondition "My_Cool_File" envSuccess ⟨some ["file.bin"], []⟩
     "/content/My_Cool_File.zip" rfl⟩

/-- C4: if the Uploader receives an HTTP response with a status code
other than 200, or a 200 response whose JSON status field is not the
success value, it returns no URL — an ordinary `None` return, never an
escaping exception — and when `main` reaches the upload step under such
a response, the subsequent cleanup still removes the archive file (the
final filesystem state is empty). -/
theorem C4_upload_failure_cleanup (env : Env)
    (hresp : env.httpRaises = false)
    (hint : env.interruptAt ≠ some Stage.upload)
    (hfail : env.httpStatus ≠ 200 ∨ env.httpJsonStatus ≠ some "ok") :
    (∀ (file_path : String) (fs : FS),
        (upload_to_gofile file_path env fs).1 = Except.ok none) ∧
      ((startswith (pyStrip env.input).data "magnet:".data = true ∧
          env.makedirsRaises = false ∧ env.interruptAt = none ∧
          env.aria2Raises = false ∧ env.aria2Exit = 0 ∧
          env.filesDownloaded ≠ [] ∧ env.zipRaises = false ∧
          env.zipExit = 0) →
        (mainRun env).1 = ⟨none, []⟩) := by
  have partA : ∀ (file_path : String) (fs : FS),
      (upload_to_gofile file_path env fs).1 = Except.ok none := by
    intro fp fs
    unfold upload_to_gofile
    by_cases hin : fp ∈ fs.archives
    · by_cases hs : env.httpStatus = 200
      · have hj : env.httpJsonStatus ≠ some "ok" := by
          rcases hfail with h | h
          · exact absurd hs h
          · exact h
        simp [hin, hint, hresp, hs, hj]
      · simp [hin, hint, hresp, hs]
    · simp [hin]
  refine ⟨partA, ?_⟩
  rintro ⟨hv, hm, hi, hr, he, hf, hzr, hze⟩
  have hi' : env.interruptAt ≠ some Stage.download := by rw [hi]; simp
  unfold mainRun
  rw [if_pos hv]
  rw [download_torrent_success _ _ _ _ hm hi' hr he]
  simp only [Option.getD_none, List.nil_append]
  rw [if_neg (by simp [hf])]
  rw [create_zip_success _ _ _ hzr hze]
  dsimp only
  rcases hup : upload_to_gofile
      ("/content/" ++ get_torrent_info (pyStrip env.input) env.time ++ ".zip")
      env
      ⟨if env.rmdirFails then some [] else none,
       [("/content/" ++ get_torrent_info (pyStrip env.input) env.time
          ++ ".zip")]⟩ with ⟨resU, fs3, tr3⟩
  have hres : resU = Except.ok none := by
    have h2 := partA
      ("/content/" ++ get_torrent_info (pyStrip env.input) env.time ++ ".zip")
      ⟨if env.rmdirFails then some [] else none,
       [("/content/" ++ get_torrent_info (pyStrip env.input) env.time
          ++ ".zip")]⟩
    rw [hup] at h2
    exact h2
  have hfs3 : fs3 =
      ⟨if env.rmdirFails then some [] else none,
       [("/content/" ++ get_torrent_info (pyStrip env.input) env.time
          ++ ".zip")]⟩ := by
    have h2 := upload_to_gofile_fs_unchanged
      ("/content/" ++ get_torrent_info (pyStrip env.input) env.time ++ ".zip")
      env
      ⟨if env.rmdirFails then some [] else none,
       [("/content/" ++ get_torrent_info (pyStrip env.input) env.time
          ++ ".zip")]⟩
    rw [hup] at h2
    exact h2
  subst hres
  subst hfs3
  apply cleanup_after_zip
  by_cases hrm : env.rmdirFails = true <;> simp [hrm]

/-- Witness for C4 in the concrete run `envUploadFail` (HTTP 500 after a
fully successful download and archive step). -/
theorem C4_upload_failure_cleanup_witness :
    (envUploadFail.httpRaises = false ∧
      envUploadFail.interruptAt ≠ some Stage.upload ∧
      envUploadFail.httpStatus ≠ 200) ∧
    ((∀ (file_path : String) (fs : FS),
        (upload_to_gofile file_path envUploadFail fs).1 = Except.ok none) ∧
      ((startswith (pyStrip envUploadFail.input).data "magnet:".data = true ∧
          envUploadFail.makedirsRaises = false ∧
          envUploadFail.interruptAt = none ∧
          envUploadFail.aria2Raises = false ∧ envUploadFail.aria2Exit = 0 ∧
          envUploadFail.filesDownloaded ≠ [] ∧
          envUploadFail.zipRaises = false ∧ envUploadFail.zipExit = 0) →
        (mainRun envUploadFail).1 = ⟨none, []⟩)) :=
  ⟨⟨rfl, by decide, by decide⟩,
   C4_upload_failure_cleanup envUploadFail rfl (by decide)
     (Or.inl (by decide))⟩

/-- A run whose stripped input fails the magnet-prefix test rejects
immediately: only the dependency installation and the invalid-link
message happen. -/
theorem mainRun_invalid_input (env : Env)
    (h : startswith (pyStrip env.input).data "magnet:".data = false) :
    mainRun env =
      (⟨none, []⟩, install_dependencies ++ [Ev.printMsg Msg.invalidMagnet]) := by
  unfold mainRun
  rw [if_neg (by simp [h])]

/-- C7 counterexample: the raw input of `envSpacedMagnet` (a magnet link
preceded by two spaces) does not start with the magnet prefix, yet the
run launches the download engine, because `main` applies `.strip()`
before the prefix check. -/
theorem C7_counterexample_leading_whitespace :
    startswith envSpacedMagnet.input.data "magnet:".data = false ∧
      spawnsAria2 (mainRun envSpacedMagnet).2 = true := by decide

/-- C7 (amended): for every run whose input, after the `.strip()` that
`main` applies, does not start with the prefix `magnet:`, the validator
rejects it with the invalid-link message, the Download Runner is never
invoked, and the filesystem is untouched. -/
theorem C7_amended_reject_after_strip (env : Env)
    (h : startswith (pyStrip env.input).data "magnet:".data = false) :
    Ev.printMsg Msg.invalidMagnet ∈ (mainRun env).2 ∧
      spawnsAria2 (mainRun env).2 = false ∧
      (mainRun env).1 = ⟨none, []⟩ := by
  rw [mainRun_invalid_input env h]
  refine ⟨?_, rfl, rfl⟩
  simp [install_dependencies]

/-- Witness for C7 (amended) at the concrete input `not-a-magnet`. -/
theorem C7_amended_reject_after_strip_witness :
    startswith (pyStrip envNotMagnet.input).data "magnet:".data = false ∧
      (Ev.printMsg Msg.invalidMagnet ∈ (mainRun envNotMagnet).2 ∧
        spawnsAria2 (mainRun envNotMagnet).2 = false ∧
        (mainRun envNotMagnet).1 = ⟨none, []⟩) :=
  ⟨by decide, C7_amended_reject_after_strip envNotMagnet (by decide)⟩

/-- C2 counterexample: on the input `not-a-magnet` the run does launch
subprocesses — the two apt-get dependency-installation commands run
before the input is even read. -/
theorem C2_counterexample_apt_subprocesses :
    envNotMagnet.input = "not-a-magnet" ∧
      spawnsAny (mainRun envNotMagnet).2 = true :=
  ⟨rfl, by decide⟩

/-- C2 (amended): on the input `not-a-magnet` the run rejects
immediately with the invalid-link message, creates no directories and
never launches the download engine or the archiver; the only
subprocesses of the whole run are the two dependency-installation
commands, which run before the input is read. -/
theorem C2_amended_reject_not_a_magnet (env : Env)
    (h : env.input = "not-a-magnet") :
    mainRun env =
      (⟨none, []⟩,
       install_dependencies ++ [Ev.printMsg Msg.invalidMagnet]) ∧
      makesDir (mainRun env).2 = false ∧
      spawnsAria2 (mainRun env).2 = false ∧
      spawnsZip (mainRun env).2 = false := by
  have hmain : mainRun env =
      (⟨none, []⟩, install_dependencies ++ [Ev.printMsg Msg.invalidMagnet]) :=
    mainRun_invalid_input env (by rw [h]; decide)
  exact ⟨hmain, by rw [hmain]; decide, by rw [hmain]; decide,
    by rw [hmain]; decide⟩

/-- Witness for C2 (amended) at `envNotMagnet` itself. -/
theorem C2_amended_reject_not_a_magnet_witness :
    envNotMagnet.input = "not-a-magnet" ∧
      (mainRun envNotMagnet =
        (⟨none, []⟩,
         install_dependencies ++ [Ev.printMsg Msg.invalidMagnet]) ∧
        makesDir (mainRun envNotMagnet).2 = false ∧
        spawnsAria2 (mainRun envNotMagnet).2 = false ∧
        spawnsZip (mainRun envNotMagnet).2 = false) :=
  ⟨rfl, C2_amended_reject_not_a_magnet envNotMagnet rfl⟩

/-! ## Lemmas for the cleanup claim -/

/-- The `cleanup_files` always prints the cleanup banner first. -/
theorem cleanupBanner_mem_cleanup_files (paths : List String) (fs : FS) :
    Ev.printMsg Msg.cleanupBanner ∈ (cleanup_files paths fs).2 := by
  have hfold : ∀ (ps : List String) (acc : FS × Trace),
      Ev.printMsg Msg.cleanupBanner ∈ acc.2 →
      Ev.printMsg Msg.cleanupBanner ∈ (ps.foldl cleanupOne acc).2 := by
    intro ps
    induction ps with
    | nil => intro acc h; exact h
    | cons p ps ih =>
      intro acc h
      rw [List.foldl_cons]
      apply ih
      simp only [cleanupOne]
      split_ifs <;> simp [h]
  simp only [cleanup_files]
  by_cases hd : (paths.foldl cleanupOne
      (fs, [Ev.printMsg Msg.cleanupBanner])).1.downloads = some []
  · rw [if_pos hd]
    exact List.mem_append_left _ (hfold _ _ (by simp))
  · rw [if_neg hd]
    exact hfold _ _ (by simp)

/-- The download step never prints the cleanup banner. -/
theorem cleanupBanner_not_mem_download (m d : String) (env : Env)
    (fs : FS) :
    Ev.printMsg Msg.cleanupBanner ∉ (download_torrent m d env fs).2.2 := by
  unfold download_torrent
  split_ifs <;> simp

/-- The archiving step never prints the cleanup banner. -/
theorem cleanupBanner_not_mem_create_zip (s n : String) (env : Env)
    (fs : FS) :
    Ev.printMsg Msg.cleanupBanner ∉ (create_zip s n env fs).2.2 := by
  unfold create_zip
  split_ifs <;> simp

/-- The `download_torrent` lets an exception escape only when directory
creation failed or the interrupt arrived during the download. -/
theorem download_torrent_error_conditions (m d : String) (env : Env)
    (fs : FS) (e : PyExc)
    (h : (download_torrent m d env fs).1 = Except.error e) :
    env.makedirsRaises = true ∨ env.interruptAt = some Stage.download := by
  unfold download_torrent at h
  split_ifs at h <;> simp_all

/-- The `download_torrent` returns `False` only when the engine threw or
exited non-zero (and the step itself completed). -/
theorem download_torrent_ok_false_conditions (m d : String) (env : Env)
    (fs : FS) (h : (download_torrent m d env fs).1 = Except.ok false) :
    env.makedirsRaises = false ∧ env.interruptAt ≠ some Stage.download ∧
      (env.aria2Raises = true ∨ env.aria2Exit ≠ 0) := by
  unfold download_torrent at h
  split_ifs at h <;> simp_all

/-- The `download_torrent` returns `True` only on a clean run with exit
code zero. -/
theorem download_torrent_ok_true_conditions (m d : String) (env : Env)
    (fs : FS) (h : (download_torrent m d env fs).1 = Except.ok true) :
    env.makedirsRaises = false ∧ env.interruptAt ≠ some Stage.download ∧
      env.aria2Raises = false ∧ env.aria2Exit = 0 := by
  unfold download_torrent at h
  split_ifs at h <;> simp_all

/-- The `create_zip` never lets an exception escape. -/
theorem create_zip_no_error (s n : String) (env : Env) (fs : FS)
    (e : PyExc) : (create_zip s n env fs).1 ≠ Except.error e := by
  unfold create_zip
  split_ifs <;> simp

/-- The `create_zip` returns `None` only when the archiver threw or exited
non-zero. -/
theorem create_zip_ok_none_conditions (s n : String) (env : Env) (fs : FS)
    (h : (create_zip s n env fs).1 = Except.ok none) :
    env.zipRaises = true ∨ env.zipExit ≠ 0 := by
  unfold create_zip at h
  split_ifs at h <;> simp_all

/-- The `create_zip` returns a path only when the archiver ran cleanly and
exited zero. -/
theorem create_zip_ok_some_conditions (s n : String) (env : Env) (fs : FS)
    (p : String) (h : (create_zip s n env fs).1 = Except.ok (some p)) :
    env.zipRaises = false ∧ env.zipExit = 0 := by
  unfold create_zip at h
  split_ifs at h <;> simp_all

/-- Without an interrupt during the upload, `upload_to_gofile` never
lets an exception escape. -/
theorem upload_to_gofile_no_error (fp : String) (env : Env) (fs : FS)
    (hint : env.interruptAt ≠ some Stage.upload) (e : PyExc) :
    (upload_to_gofile fp env fs).1 ≠ Except.error e := by
  unfold upload_to_gofile
  split_ifs <;> try simp_all
  cases env.httpDownloadPage <;> simp

/-- Whenever `main` gets past the archiver with no interruption
anywhere, the run ends with the final cleanup and an empty model
filesystem, whatever the upload response was. -/
theorem mainRun_reaches_upload_final (env : Env)
    (hv : startswith (pyStrip env.input).data "magnet:".data = true)
    (hm : env.makedirsRaises = false) (hi : env.interruptAt = none)
    (hr : env.aria2Raises = false) (he : env.aria2Exit = 0)
    (hf : env.filesDownloaded ≠ []) (hzr : env.zipRaises = false)
    (hze : env.zipExit = 0) :
    (mainRun env).1 = ⟨none, []⟩ := by
  have hi' : env.interruptAt ≠ some Stage.download := by rw [hi]; simp
  unfold mainRun
  rw [if_pos hv]
  rw [download_torrent_success _ _ _ _ hm hi' hr he]
  simp only [Option.getD_none, List.nil_append]
  rw [if_neg (by simp [hf])]
  rw [create_zip_success _ _ _ hzr hze]
  dsimp only
  rcases hup : upload_to_gofile
      ("/content/" ++ get_torrent_info (pyStrip env.input) env.time ++ ".zip")
      env
      ⟨if env.rmdirFails then some [] else none,
       [("/content/" ++ get_torrent_info (pyStrip env.input) env.time
          ++ ".zip")]⟩ with ⟨resU, fs3, tr3⟩
  have hfs3 : fs3 =
      ⟨if env.rmdirFails then some [] else none,
       [("/content/" ++ get_torrent_info (pyStrip env.input) env.time
          ++ ".zip")]⟩ := by
    have h2 := upload_to_gofile_fs_unchanged
      ("/content/" ++ get_torrent_info (pyStrip env.input) env.time ++ ".zip")
      env
      ⟨if env.rmdirFails then some [] else none,
       [("/content/" ++ get_torrent_info (pyStrip env.input) env.time
          ++ ".zip")]⟩
    rw [hup] at h2
    exact h2
  cases resU with
  | error e =>
    exfalso
    have h2 := upload_to_gofile_no_error
      ("/content/" ++ get_torrent_info (pyStrip env.input) env.time ++ ".zip")
      env
      ⟨if env.rmdirFails then some [] else none,
       [("/content/" ++ get_torrent_info (pyStrip env.input) env.time
          ++ ".zip")]⟩
      (by rw [hi]; simp) e
    rw [hup] at h2
    exact h2 rfl
  | ok r =>
    subst hfs3
    apply cleanup_after_zip
    by_cases hrm : env.rmdirFails = true <;> simp [hrm]

/-- C1 counterexample: in the run `envDownloadFail` the download engine
exits with code 1 after writing a partial file; `main` returns early,
`cleanup_files` is never called, and the populated download directory
remains after the process exits. -/
theorem C1_counterexample_download_failure :
    (mainRun envDownloadFail).1.downloads = some ["partial.bin"] ∧
      ¬ CleanupRan (mainRun envDownloadFail).2 := by decide

/-- C1 (amended): Cleanup executes if and only if the run either enters
one of `main`'s two exception handlers (unexpected error from
`os.makedirs`, or interruption during the download) or the straight-line
path reaches the upload call; on the early-return outcomes — invalid
input, download failure, empty download result, archive failure —
the process exits without running Cleanup.  When the run reaches the
upload with no interruption at all, the final cleanup leaves no archive
file and no download directory. -/
theorem C1_amended_cleanup_characterization (env : Env) :
    (CleanupRan (mainRun env).2 ↔ ReachesCleanup env) ∧
      ((ReachesCleanup env ∧ env.makedirsRaises = false ∧
          env.interruptAt = none) → (mainRun env).1 = ⟨none, []⟩) := by
  constructor
  · by_cases hv : startswith (pyStrip env.input).data "magnet:".data = true
    · unfold mainRun
      rw [if_pos hv]
      rcases hdt : download_torrent (pyStrip env.input) downloadDir env
          ⟨none, []⟩ with ⟨res, fs1, tr1⟩
      cases res with
      | error e =>
        constructor
        · intro _
          exact ⟨hv, (download_torrent_error_conditions _ _ _ _ e
            (by rw [hdt])).imp id Or.inl⟩
        · intro _
          simp [CleanupRan, cleanupBanner_mem_cleanup_files]
      | ok b =>
        cases b with
        | false =>
          obtain ⟨hm, hi', hrx⟩ :=
            download_torrent_ok_false_conditions _ _ _ _ (by rw [hdt])
          have hnd : Ev.printMsg Msg.cleanupBanner ∉ tr1 := by
            have h2 := cleanupBanner_not_mem_download (pyStrip env.input)
              downloadDir env ⟨none, []⟩
            rw [hdt] at h2
            exact h2
          constructor
          · intro hc
            exfalso
            revert hc
            simp [CleanupRan, install_dependencies, hnd]
          · rintro ⟨_, h1 | h2 | ⟨hr', he', _⟩⟩
            · simp [hm] at h1
            · exact absurd h2 hi'
            · rcases hrx with hx | hx
              · simp [hr'] at hx
              · exact absurd he' hx
        | true =>
          obtain ⟨hm, hi', hr, he⟩ :=
            download_torrent_ok_true_conditions _ _ _ _ (by rw [hdt])
          have hsucc := download_torrent_success (pyStrip env.input)
            downloadDir env ⟨none, []⟩ hm hi' hr he
          rw [hdt] at hsucc
          simp only [Prod.mk.injEq] at hsucc
          obtain ⟨_, hfs1, htr1⟩ := hsucc
          subst hfs1
          subst htr1
          simp only [Option.getD_none, List.nil_append]
          by_cases hfe : env.filesDownloaded = []
          · rw [if_pos (by simp [hfe])]
            constructor
            · intro hc
              exfalso
              revert hc
              simp [CleanupRan, install_dependencies]
            · rintro ⟨_, h1 | h2 | ⟨_, _, hne, _⟩⟩
              · simp [hm] at h1
              · exact absurd h2 hi'
              · exact absurd hfe hne
          · rw [if_neg (by simp [hfe])]
            rcases hcz : create_zip downloadDir
                (get_torrent_info (pyStrip env.input) env.time) env
                ⟨some env.filesDownloaded, []⟩ with ⟨resZ, fs2, tr2⟩
            cases resZ with
            | error e =>
              exact absurd (by rw [hcz])
                (create_zip_no_error downloadDir _ env _ e)
            | ok o =>
              have hnz : Ev.printMsg Msg.cleanupBanner ∉ tr2 := by
                have h2 := cleanupBanner_not_mem_create_zip downloadDir
                  (get_torrent_info (pyStrip env.input) env.time) env
                  ⟨some env.filesDownloaded, []⟩
                rw [hcz] at h2
                exact h2
              cases o with
              | none =>
                have hzc := create_zip_ok_none_conditions _ _ _ _
                  (by rw [hcz])
                constructor
                · intro hc
                  exfalso
                  revert hc
                  simp [CleanupRan, install_dependencies, hnz]
                · rintro ⟨_, h1 | h2 | ⟨_, _, _, hzr', hze'⟩⟩
                  · simp [hm] at h1
                  · exact absurd h2 hi'
                  · rcases hzc with hx | hx
                    · simp [hzr'] at hx
                    · exact absurd hze' hx
              | some zp =>
                dsimp only
                obtain ⟨hzr, hze⟩ := create_zip_ok_some_conditions _ _ _ _ _
                  (by rw [hcz])
                rcases hup : upload_to_gofile zp env fs2 with ⟨resU, fs3, tr3⟩
                have hrc : ReachesCleanup env :=
                  ⟨hv, Or.inr (Or.inr ⟨hr, he, hfe, hzr, hze⟩)⟩
                cases resU with
                | error e =>
                  constructor
                  · intro _
                    exact hrc
                  · intro _
                    simp [CleanupRan, cleanupBanner_mem_cleanup_files]
                | ok r =>
                  constructor
                  · intro _
                    exact hrc
                  · intro _
                    simp [CleanupRan, cleanupBanner_mem_cleanup_files]
    · rw [mainRun_invalid_input env (by simpa using hv)]
      constructor
      · intro hc
        exact absurd hc (by decide)
      · rintro ⟨h1, _⟩
        exact absurd h1 hv
  · rintro ⟨⟨hv, hdisj⟩, hm, hi⟩
    rcases hdisj with h1 | h2 | ⟨hr, he, hf, hzr, hze⟩
    · simp [hm] at h1
    · rw [hi] at h2
      simp at h2
    · exact mainRun_reaches_upload_final env hv hm hi hr he hf hzr hze

/-- Witness for C1 (amended): the fully successful run `envSuccess`
satisfies `ReachesCleanup`, its cleanup characterization holds, and its
final filesystem state is empty. -/
theorem C1_amended_cleanup_characterization_witness :
    ReachesCleanup envSuccess ∧
      (CleanupRan (mainRun envSuccess).2 ↔ ReachesCleanup envSuccess) ∧
      (mainRun envSuccess).1 = ⟨none, []⟩ :=
  ⟨by decide,
   (C1_amended_cleanup_characterization envSuccess).1,
   (C1_amended_cleanup_characterization envSuccess).2 ⟨by decide, rfl, rfl⟩⟩

end TorrentBot
